import Mathlib

/-!
A shallow embedding of `src/UUID_benchmark.py`: four generators of a 14-bit
UUID clock-sequence value and the benchmark harness that times them,
together with proofs of the specification claims about the program.

Modelling conventions:
* Randomness is made explicit: each generator becomes a function of the
  value its underlying randomness source supplies.  `random.getrandbits(14)`
  and `secrets.randbits(14)` keep the low 14 bits of the source value, and
  `os.urandom(2)` supplies two bytes.
* Python floats are modelled as exact rationals (`ℚ`); the square root
  inside `statistics.stdev` is modelled by `Real.sqrt`.
* Wall-clock measurements are an oracle: `timeit.Timer.repeat` receives a
  function from the repeat index to the elapsed total of that repeat.
* Python exceptions (`ZeroDivisionError`, `StatisticsError`) are modelled
  with `Except String`; an uncaught exception aborts the fold over the
  test cases exactly where it is raised.
-/

namespace UUIDBenchmark

/-- Model of `random.getrandbits(k)` and `secrets.randbits(k)`: the low `k` bits of the
value `src` produced by the underlying randomness source. -/
def getrandbits (k : ℕ) (src : ℕ) : ℕ := src % 2 ^ k

/-- Source function `current_clock_sequence()` (line 5):
`random.getrandbits(14)`, as a function of the PRNG output `src`. -/
def current_clock_sequence (src : ℕ) : ℕ := getrandbits 14 src

/-- Source function `clockseq_secrets()` (line 10): `secrets.randbits(14)`, as a function of
the CSPRNG output `src`. -/
def clockseq_secrets (src : ℕ) : ℕ := getrandbits 14 src

/-- Model of `int.from_bytes(bs, big)` with big-endian byte order on an unsigned byte string. -/
def intFromBytesBE (bs : List ℕ) : ℕ := bs.foldl (fun a b => 256 * a + b) 0

/-- Model of `int.from_bytes(bs, big, signed=s)`: when `s` is set and the top bit of
the byte string is set, the unsigned value is reduced by `2 ^ (8 * len)`. -/
def intFromBytesBESigned (bs : List ℕ) (s : Bool) : ℤ :=
  if s = true ∧ 2 ^ (8 * bs.length) ≤ 2 * intFromBytesBE bs then
    (intFromBytesBE bs : ℤ) - 2 ^ (8 * bs.length)
  else
    (intFromBytesBE bs : ℤ)

/-- Source function `clockseq_urandom()` (line 14):
`int.from_bytes(urandom(2), big) & 0x3fff`, as a function of the two bytes
`e0 e1` supplied by `os.urandom(2)`. -/
def clockseq_urandom (e0 e1 : ℕ) : ℕ := intFromBytesBE [e0, e1] &&& 0x3fff

/-- Source function `clockseq_urandom_optimized()` (line 18):
`int.from_bytes(urandom(2), big, signed=False) & 0x3fff`. -/
def clockseq_urandom_optimized (e0 e1 : ℕ) : ℕ :=
  (intFromBytesBESigned [e0, e1] false).toNat &&& 0x3fff

/-- Source constant `NUM_ITERATIONS = 1_000_000` (line 24). -/
def NUM_ITERATIONS : ℕ := 1000000

/-- Source constant `WARMUP_ROUNDS = 100` (line 25). -/
def WARMUP_ROUNDS : ℕ := 100

/-- The literal `repeat=5` passed to `timer.repeat` on line 52. -/
def REPEAT_COUNT : ℕ := 5

/-- Source list `TEST_CASES` (lines 26-31): label and invocation form of each candidate. -/
def TEST_CASES : List (String × String) :=
  [("current (random.getrandbits)", "current_clock_sequence()"),
   ("secrets.getrandbits", "clockseq_secrets()"),
   ("os.urandom", "clockseq_urandom()"),
   ("os.urandom_optimized", "clockseq_urandom_optimized()")]

/-- Model of `statistics.mean`, in exact rational arithmetic. -/
def mean (l : List ℚ) : ℚ := l.sum / (l.length : ℚ)

/-- The sample variance used by `statistics.stdev`:
`Σ (x - mean)² / (n - 1)`. -/
def variance (l : List ℚ) : ℚ :=
  ((l.map fun x => (x - mean l) ^ 2).sum) / ((l.length : ℚ) - 1)

/-- Model of `statistics.stdev`: square root of the sample variance. -/
noncomputable def stdev (l : List ℚ) : ℝ := Real.sqrt (variance l)

/-- One entry of `results` (lines 59-63): the three metrics computed for a
generator. -/
structure ResultRecord where
  avg_ns : ℚ
  stddev_ns : ℝ
  ops_per_sec : ℚ

/-- Lines 55-57 of the source, as a total function:
`avg_time = mean(times) / NUM_ITERATIONS * 1e9`,
`std_dev = stdev(times) / NUM_ITERATIONS * 1e9`,
`ops_per_sec = NUM_ITERATIONS / mean(times)`. -/
noncomputable def summarize (times : List ℚ) (n : ℕ) : ResultRecord :=
  { avg_ns := mean times / (n : ℚ) * 1e9
    stddev_ns := stdev times / (n : ℝ) * 1e9
    ops_per_sec := (n : ℚ) / mean times }

/-- Model of `statistics.mean` with its error behaviour: raises `StatisticsError`
on an empty data list. -/
def meanE (l : List ℚ) : Except String ℚ :=
  if l.length = 0 then .error "StatisticsError: mean requires at least one data point"
  else .ok (l.sum / (l.length : ℚ))

/-- Rational division with the Python error behaviour: raises
`ZeroDivisionError` on a zero divisor. -/
def divE (a b : ℚ) : Except String ℚ :=
  if b = 0 then .error "ZeroDivisionError: division by zero" else .ok (a / b)

/-- Division of the real-valued standard deviation by a rational, with
the Python error behaviour on a zero divisor. -/
noncomputable def divRE (a : ℝ) (b : ℚ) : Except String ℝ :=
  if b = 0 then .error "ZeroDivisionError: division by zero" else .ok (a / (b : ℝ))

/-- Model of `statistics.stdev` with its error behaviour: raises `StatisticsError`
when there are fewer than two data points. -/
noncomputable def stdevE (l : List ℚ) : Except String ℝ :=
  if l.length < 2 then .error "StatisticsError: stdev requires at least two data points"
  else .ok (stdev l)

/-- Lines 55-57 with exceptions modelled: mean, the division by the
iteration count, the standard deviation, its scaling, and the throughput
division, in source order. -/
noncomputable def summarizeE (times : List ℚ) (n : ℕ) : Except String ResultRecord := do
  let m ← meanE times
  let avg ← divE m (n : ℚ)
  let sd ← stdevE times
  let sdn ← divRE sd (n : ℚ)
  let ops ← divE (n : ℚ) m
  return ⟨avg * 1e9, sdn * 1e9, ops⟩

/-- Model of `timer.repeat(repeat=r, number=n)` (line 52): the elapsed total of
repeat `i` is supplied by the timing oracle `clock`. -/
def timerRepeat (r : ℕ) (clock : ℕ → ℚ) : List ℚ := (List.range r).map clock

/-- The warmup loop (lines 39-43): each round performs one call to each of
the four generators; the result is the number of generator invocations. -/
def warmupCalls : ℕ → ℕ
  | 0 => 0
  | k + 1 => warmupCalls k + 4

/-- One iteration of the `for name, stmt in TEST_CASES` loop (lines 47-66),
threading the generator-invocation count and the accumulated results.
`timer.repeat(repeat=r, number=iters)` executes the statement `r * iters`
times; an exception raised while summarizing aborts the run there. -/
noncomputable def runCase (iters r : ℕ) (oracle : String → ℕ → ℚ)
    (acc : ℕ × Except String (List (String × ResultRecord)))
    (tc : String × String) : ℕ × Except String (List (String × ResultRecord)) :=
  match acc with
  | (c, .error e) => (c, .error e)
  | (c, .ok res) =>
    match summarizeE (timerRepeat r (oracle tc.1)) iters with
    | .error e => (c + r * iters, .error e)
    | .ok rcd => (c + r * iters, .ok (res ++ [(tc.1, rcd)]))

/-- Model of `run_benchmark()` (lines 33-73), parametrized by the configuration:
warmup, then the measured loop over `TEST_CASES`.  The first component
counts generator invocations; the second holds the per-generator records
or the uncaught exception. -/
noncomputable def runBenchmarkE (iters r warm : ℕ) (oracle : String → ℕ → ℚ) :
    ℕ × Except String (List (String × ResultRecord)) :=
  TEST_CASES.foldl (runCase iters r oracle) (warmupCalls warm, .ok [])

/-- Model of `run_benchmark()` at the configuration hard-coded in the source. -/
noncomputable def runBenchmark (oracle : String → ℕ → ℚ) :
    ℕ × Except String (List (String × ResultRecord)) :=
  runBenchmarkE NUM_ITERATIONS REPEAT_COUNT WARMUP_ROUNDS oracle

/-- The measured results as a pure error pipeline: each case contributes
its summary, and the first exception short-circuits everything after it. -/
noncomputable def summariesPipeline (iters r : ℕ) (oracle : String → ℕ → ℚ) :
    Except String (List (String × ResultRecord)) :=
  TEST_CASES.foldl
    (fun acc tc => acc.bind fun res =>
      (summarizeE (timerRepeat r (oracle tc.1)) iters).map fun rcd => res ++ [(tc.1, rcd)])
    (.ok [])

/-- The process exit status determined by the run outcome: `0` on normal
completion, `1` when an exception propagates out of `run_benchmark`. -/
def exitStatus {α : Type} : Except String α → ℕ
  | .ok _ => 0
  | .error _ => 1

/-- The sort key of line 72: the avg_ns field of the record component. -/
def avgLE (a b : String × ResultRecord) : Prop := a.2.avg_ns ≤ b.2.avg_ns

instance : DecidableRel avgLE :=
  fun a b => inferInstanceAs (Decidable (a.2.avg_ns ≤ b.2.avg_ns))

instance : IsTotal (String × ResultRecord) avgLE :=
  ⟨fun a b => le_total a.2.avg_ns b.2.avg_ns⟩

instance : IsTrans (String × ResultRecord) avgLE :=
  ⟨fun _ _ _ hab hbc => le_trans hab hbc⟩

/-- Model of the line 72 call sorting the results by the avg_ns key; the stable Python sort is modelled by a stable insertion sort. -/
def sortResults (rs : List (String × ResultRecord)) : List (String × ResultRecord) :=
  List.insertionSort avgLE rs

/-! ### Helper lemmas -/

theorem getrandbits_le (k s : ℕ) : getrandbits k s ≤ 2 ^ k - 1 := by
  have h : s % 2 ^ k < 2 ^ k := Nat.mod_lt _ (Nat.pos_pow_of_pos k (by norm_num))
  simp only [getrandbits]
  omega

theorem intFromBytesBE_pair (e0 e1 : ℕ) : intFromBytesBE [e0, e1] = 256 * e0 + e1 := by
  simp [intFromBytesBE, List.foldl_cons, List.foldl_nil]

theorem clockseq_urandom_eq_mod (e0 e1 : ℕ) :
    clockseq_urandom e0 e1 = (256 * e0 + e1) % 16384 := by
  rw [clockseq_urandom, intFromBytesBE_pair,
    show (0x3fff : ℕ) = 2 ^ 14 - 1 by norm_num,
    Nat.and_pow_two_sub_one_eq_mod]

/-! ### Claim theorems -/

/-- Claim C1: each of the four generators, for every value its underlying
randomness source can supply, returns an integer in the closed range
[0, 16383]. -/
theorem generators_in_range (src src2 e0 e1 f0 f1 : ℕ) :
    current_clock_sequence src ≤ 16383 ∧
    clockseq_secrets src2 ≤ 16383 ∧
    clockseq_urandom e0 e1 ≤ 16383 ∧
    clockseq_urandom_optimized f0 f1 ≤ 16383 := by
  have h1 := getrandbits_le 14 src
  have h2 := getrandbits_le 14 src2
  norm_num [current_clock_sequence, clockseq_secrets] at h1 h2 ⊢
  exact ⟨h1, h2, Nat.and_le_right, Nat.and_le_right⟩

/-- Claim C2: the baseline OS-entropy generator and its "optimized" variant
are behaviorally identical on every 2-byte entropy input; the explicit
`signed=False` flag is a no-op relative to the default. -/
theorem urandom_optimized_identical (e0 e1 : ℕ) :
    clockseq_urandom_optimized e0 e1 = clockseq_urandom e0 e1 := by
  rw [clockseq_urandom_optimized, clockseq_urandom, intFromBytesBESigned,
    if_neg (fun h => Bool.false_ne_true h.1), Int.toNat_natCast]

/-- Claim C8: the raw-entropy generator interprets its two bytes as a
big-endian unsigned integer masked to 14 bits, i.e. returns
`(256 * b0 + b1) % 16384`, and every value `v < 16384` has exactly four
2-byte preimages, so the uniform distribution on 2-byte strings is carried
to the uniform distribution on [0, 16383]. -/
theorem urandom_mask_mod_and_uniform (v : ℕ) (hv : v < 16384) :
    (∀ e0 e1, clockseq_urandom e0 e1 = (256 * e0 + e1) % 16384) ∧
    ((Finset.range 256 ×ˢ Finset.range 256).filter
        (fun p => clockseq_urandom p.1 p.2 = v)).card = 4 := by
  refine ⟨clockseq_urandom_eq_mod, ?_⟩
  have key : (Finset.range 256 ×ˢ Finset.range 256).filter
      (fun p => clockseq_urandom p.1 p.2 = v) =
      (Finset.range 4).image fun i => ((16384 * i + v) / 256, (16384 * i + v) % 256) := by
    ext p
    obtain ⟨a, b⟩ := p
    simp only [Finset.mem_filter, Finset.mem_product, Finset.mem_range,
      Finset.mem_image, clockseq_urandom_eq_mod, Prod.mk.injEq]
    constructor
    · rintro ⟨⟨ha, hb⟩, hm⟩
      exact ⟨(256 * a + b) / 16384, by omega, by omega, by omega⟩
    · rintro ⟨i, hi, hpa, hpb⟩
      subst hpa
      subst hpb
      exact ⟨⟨by omega, by omega⟩, by omega⟩
  rw [key, Finset.card_image_of_injective, Finset.card_range]
  intro i j hij
  simp only [Prod.mk.injEq] at hij
  omega

/-- Witness for the claim C8 theorem, instantiated at the value `v = 7`. -/
theorem urandom_mask_mod_and_uniform_witness :
    7 < 16384 ∧
    ((∀ e0 e1, clockseq_urandom e0 e1 = (256 * e0 + e1) % 16384) ∧
     ((Finset.range 256 ×ˢ Finset.range 256).filter
         (fun p => clockseq_urandom p.1 p.2 = 7)).card = 4) :=
  ⟨by decide, urandom_mask_mod_and_uniform 7 (by decide)⟩

/-- Claim C3: `Summarize` is a deterministic function of its inputs: the
average per-call latency is `mean(times)/n * 1e9` nanoseconds, the standard
deviation is `stdev(times)/n * 1e9`, the throughput is `n / mean(times)`
calls per second; in particular, on raw totals
[0.10, 0.11, 0.09, 0.10, 0.10] seconds with n = 1,000,000 the average is
100 ns and the throughput is 10,000,000 ops/sec. -/
theorem summarize_deterministic :
    (∀ (times : List ℚ) (n : ℕ),
        (summarize times n).avg_ns = mean times / (n : ℚ) * 1e9 ∧
        (summarize times n).stddev_ns = stdev times / (n : ℝ) * 1e9 ∧
        (summarize times n).ops_per_sec = (n : ℚ) / mean times) ∧
    (summarize [0.10, 0.11, 0.09, 0.10, 0.10] 1000000).avg_ns = 100 ∧
    (summarize [0.10, 0.11, 0.09, 0.10, 0.10] 1000000).ops_per_sec = 10000000 := by
  refine ⟨fun times n => ⟨rfl, rfl, rfl⟩, ?_, ?_⟩ <;>
    norm_num [summarize, mean, List.sum_cons, List.sum_nil]

/-- Claim C10: for every sample list with positive mean, the reported
average latency and throughput computed at the iteration count of the program
are exact reciprocals up to the nanosecond scale:
`avg_ns * ops_per_sec = 1e9` in exact rational arithmetic. -/
theorem avg_throughput_reciprocal (times : List ℚ) (h : 0 < mean times) :
    (summarize times NUM_ITERATIONS).avg_ns * (summarize times NUM_ITERATIONS).ops_per_sec
      = 1e9 := by
  have hm : mean times ≠ 0 := ne_of_gt h
  simp only [summarize, NUM_ITERATIONS, Nat.cast_ofNat]
  field_simp

/-- Witness for the claim C10 theorem on the sample list `[2, 2]`. -/
theorem avg_throughput_reciprocal_witness :
    0 < mean [2, 2] ∧
    (summarize [2, 2] NUM_ITERATIONS).avg_ns * (summarize [2, 2] NUM_ITERATIONS).ops_per_sec
      = 1e9 :=
  ⟨by norm_num [mean, List.sum_cons, List.sum_nil],
   avg_throughput_reciprocal [2, 2] (by norm_num [mean, List.sum_cons, List.sum_nil])⟩

/-- Claim C4: the final comparison table lists the generators sorted in
ascending order of average per-call latency: for every results list the
printed row order is a permutation of the records, non-decreasing in
avg_ns; on average latencies 50 ns, 20 ns, 80 ns the rows appear in the
order 20, 50, 80. -/
theorem results_table_sorted (rs : List (String × ResultRecord)) :
    (sortResults rs).Perm rs ∧
    List.Sorted avgLE (sortResults rs) ∧
    sortResults [("current (random.getrandbits)", ⟨50, 0, 0⟩),
                 ("secrets.getrandbits", ⟨20, 0, 0⟩),
                 ("os.urandom", ⟨80, 0, 0⟩)] =
      [("secrets.getrandbits", ⟨20, 0, 0⟩),
       ("current (random.getrandbits)", ⟨50, 0, 0⟩),
       ("os.urandom", ⟨80, 0, 0⟩)] := by
  refine ⟨List.perm_insertionSort avgLE rs, List.sorted_insertionSort avgLE rs, ?_⟩
  norm_num [sortResults, List.insertionSort, List.orderedInsert, avgLE]

theorem except_bind_ok {α β : Type} (a : α) (f : α → Except String β) :
    (Except.ok a : Except String α).bind f = f a := rfl

theorem except_bind_error {α β : Type} (e : String) (f : α → Except String β) :
    (Except.error e : Except String α).bind f = .error e := rfl

theorem except_map_ok {α β : Type} (a : α) (f : α → β) :
    (Except.ok a : Except String α).map f = .ok (f a) := rfl

theorem except_map_error {α β : Type} (e : String) (f : α → β) :
    (Except.error e : Except String α).map f = .error e := rfl

theorem except_isOk_ok {α : Type} (a : α) : (Except.ok a : Except String α).isOk = true := rfl

theorem except_isOk_error {α : Type} (e : String) :
    (Except.error e : Except String α).isOk = false := rfl

theorem warmupCalls_eq (k : ℕ) : warmupCalls k = k * 4 := by
  induction k with
  | zero => rfl
  | succ n ih => simp only [warmupCalls, ih]; omega

theorem runCase_error (iters r : ℕ) (o : String → ℕ → ℚ) (c : ℕ) (e : String)
    (tc : String × String) : runCase iters r o (c, .error e) tc = (c, .error e) := rfl

theorem runCase_ok (iters r : ℕ) (o : String → ℕ → ℚ) (c : ℕ)
    (res : List (String × ResultRecord)) (tc : String × String) :
    runCase iters r o (c, .ok res) tc =
      (c + r * iters,
        (summarizeE (timerRepeat r (o tc.1)) iters).map fun rcd => res ++ [(tc.1, rcd)]) := by
  simp only [runCase]
  rcases summarizeE (timerRepeat r (o tc.1)) iters with e | rcd <;> rfl

theorem run_foldl_snd (iters r : ℕ) (o : String → ℕ → ℚ)
    (cs : List (String × String)) :
    ∀ (c : ℕ) (x : Except String (List (String × ResultRecord))),
      (List.foldl (runCase iters r o) (c, x) cs).2 =
        List.foldl
          (fun acc tc => acc.bind fun res =>
            (summarizeE (timerRepeat r (o tc.1)) iters).map fun rcd => res ++ [(tc.1, rcd)])
          x cs := by
  induction cs with
  | nil => intro c x; rfl
  | cons tc rest ih =>
    intro c x
    cases x with
    | error e =>
      rw [List.foldl_cons, List.foldl_cons, runCase_error, ih, except_bind_error]
    | ok res =>
      rw [List.foldl_cons, List.foldl_cons, runCase_ok, ih, except_bind_ok]

theorem run_foldl_error (iters r : ℕ) (o : String → ℕ → ℚ)
    (cs : List (String × String)) :
    ∀ (c : ℕ) (e : String),
      List.foldl (runCase iters r o) (c, .error e) cs = (c, .error e) := by
  induction cs with
  | nil => intro c e; rfl
  | cons tc rest ih => intro c e; rw [List.foldl_cons, runCase_error, ih]

theorem run_foldl_count (iters r : ℕ) (o : String → ℕ → ℚ)
    (cs : List (String × String)) :
    ∀ (c : ℕ) (res : List (String × ResultRecord)),
      (List.foldl (runCase iters r o) (c, .ok res) cs).2.isOk = true →
      (List.foldl (runCase iters r o) (c, .ok res) cs).1 = c + cs.length * (r * iters) := by
  induction cs with
  | nil => intro c res _; simp
  | cons tc rest ih =>
    intro c res h
    rw [List.foldl_cons, runCase_ok] at h ⊢
    cases hs : summarizeE (timerRepeat r (o tc.1)) iters with
    | error e =>
      rw [hs, except_map_error, run_foldl_error] at h
      simp [except_isOk_error] at h
    | ok rcd =>
      rw [hs, except_map_ok] at h
      rw [except_map_ok, ih (c + r * iters) (res ++ [(tc.1, rcd)]) h]
      simp only [List.length_cons]
      ring

theorem pipeline_foldl_isOk (iters r : ℕ) (o : String → ℕ → ℚ)
    (cs : List (String × String)) :
    ∀ (x : Except String (List (String × ResultRecord))),
      (List.foldl
          (fun acc tc => acc.bind fun res =>
            (summarizeE (timerRepeat r (o tc.1)) iters).map fun rcd => res ++ [(tc.1, rcd)])
          x cs).isOk
        = (x.isOk && cs.all fun tc => (summarizeE (timerRepeat r (o tc.1)) iters).isOk) := by
  induction cs with
  | nil => intro x; simp
  | cons tc rest ih =>
    intro x
    rw [List.foldl_cons, List.all_cons]
    cases x with
    | error e =>
      rw [except_bind_error, ih, except_isOk_error]
      simp
    | ok res =>
      rw [except_bind_ok]
      cases summarizeE (timerRepeat r (o tc.1)) iters with
      | error e =>
        rw [except_map_error, ih]
        simp [except_isOk_error, except_isOk_ok]
      | ok rcd =>
        rw [except_map_ok, ih]
        simp [except_isOk_ok]

/-- Claim C7: no exception raised during a run is caught anywhere: the run
result is exactly the sequential error pipeline of the per-case summaries
(the first exception propagates out unchanged), the run succeeds exactly
when every per-case summary succeeds, and the exit status is zero exactly
on normal completion and one otherwise. -/
theorem exceptions_uncaught (iters r warm : ℕ) (o : String → ℕ → ℚ) :
    exitStatus (runBenchmarkE iters r warm o).2
        = (if ((runBenchmarkE iters r warm o).2).isOk then 0 else 1) ∧
    ((runBenchmarkE iters r warm o).2).isOk
        = (TEST_CASES.all fun tc => (summarizeE (timerRepeat r (o tc.1)) iters).isOk) ∧
    (runBenchmarkE iters r warm o).2 = summariesPipeline iters r o := by
  have h3 : (runBenchmarkE iters r warm o).2 = summariesPipeline iters r o := by
    rw [runBenchmarkE, summariesPipeline, run_foldl_snd]
  refine ⟨?_, ?_, h3⟩
  · cases (runBenchmarkE iters r warm o).2 with
    | error e => rfl
    | ok res => rfl
  · rw [h3, summariesPipeline, pipeline_foldl_isOk, except_isOk_ok, Bool.true_and]

/-- Claim C5: warmup invocations never enter the recorded timing samples:
in a run that completes, the generator-invocation counter equals
warmupRounds × 4 plus repeatCount × iterationCount for each of the four
test cases, and the recorded results are independent of the number of
warmup rounds. -/
theorem warmup_not_recorded (iters r warm : ℕ) (o : String → ℕ → ℚ)
    (h : ((runBenchmarkE iters r warm o).2).isOk = true) :
    (runBenchmarkE iters r warm o).1 = warm * 4 + 4 * (r * iters) ∧
    (runBenchmarkE iters r warm o).2 = (runBenchmarkE iters r 0 o).2 := by
  constructor
  · rw [runBenchmarkE] at h ⊢
    rw [run_foldl_count iters r o TEST_CASES (warmupCalls warm) [] h, warmupCalls_eq]
    norm_num [TEST_CASES]
  · rw [runBenchmarkE, runBenchmarkE, run_foldl_snd, run_foldl_snd]

theorem bind_ok_eq {α β : Type} (a : α) (f : α → Except String β) :
    (Bind.bind (Except.ok a) f : Except String β) = f a := rfl

theorem summarizeE_isOk_of (times : List ℚ) (n : ℕ) (h0 : ¬ times.length = 0)
    (h2 : ¬ times.length < 2) (hn : ¬ (n : ℚ) = 0)
    (hm : ¬ times.sum / (times.length : ℚ) = 0) :
    (summarizeE times n).isOk = true := by
  rw [summarizeE, meanE, if_neg h0]
  simp only [bind_ok_eq]
  rw [divE, if_neg hn]
  simp only [bind_ok_eq]
  rw [stdevE, if_neg h2]
  simp only [bind_ok_eq]
  rw [divRE, if_neg hn]
  simp only [bind_ok_eq]
  rw [divE, if_neg hm]
  simp only [bind_ok_eq]
  rfl

/-- Witness for the claim C5 theorem: a completed run at the source
configuration (1,000,000 iterations, 5 repeats, 100 warmup rounds) with a
constant timing oracle; the counter equals 100×4 + 4×(5×1,000,000). -/
theorem warmup_not_recorded_witness :
    ((runBenchmarkE NUM_ITERATIONS REPEAT_COUNT WARMUP_ROUNDS (fun _ _ => 1)).2).isOk = true ∧
    ((runBenchmarkE NUM_ITERATIONS REPEAT_COUNT WARMUP_ROUNDS (fun _ _ => 1)).1
        = WARMUP_ROUNDS * 4 + 4 * (REPEAT_COUNT * NUM_ITERATIONS) ∧
     (runBenchmarkE NUM_ITERATIONS REPEAT_COUNT WARMUP_ROUNDS (fun _ _ => 1)).2
        = (runBenchmarkE NUM_ITERATIONS REPEAT_COUNT 0 (fun _ _ => 1)).2) := by
  have ht : timerRepeat REPEAT_COUNT (fun _ => (1 : ℚ)) = [1, 1, 1, 1, 1] := rfl
  have hone : (summarizeE (timerRepeat REPEAT_COUNT fun _ => (1 : ℚ)) NUM_ITERATIONS).isOk
      = true :=
    summarizeE_isOk_of _ _ (by rw [ht]; simp) (by rw [ht]; simp)
      (by norm_num [NUM_ITERATIONS])
      (by rw [ht]; norm_num [List.sum_cons, List.sum_nil])
  have hA : ((runBenchmarkE NUM_ITERATIONS REPEAT_COUNT WARMUP_ROUNDS (fun _ _ => 1)).2).isOk
      = true := by
    rw [runBenchmarkE, run_foldl_snd,
      pipeline_foldl_isOk NUM_ITERATIONS REPEAT_COUNT (fun _ _ => 1) TEST_CASES,
      except_isOk_ok, Bool.true_and]
    simp [TEST_CASES, hone]
  exact ⟨hA, warmup_not_recorded _ _ _ _ hA⟩

/-- Claim C9: the standard-deviation computation is total in every
reachable call: the repeat count is fixed at 5, so every timing sample
list has length 5 ≥ 2 and the fewer-than-two-data-points error branch of
`stdev` is never taken. -/
theorem stdev_branch_unreachable (o : String → ℕ → ℚ) (name : String) :
    (timerRepeat REPEAT_COUNT (o name)).length = 5 ∧
    2 ≤ (timerRepeat REPEAT_COUNT (o name)).length ∧
    stdevE (timerRepeat REPEAT_COUNT (o name))
      = .ok (stdev (timerRepeat REPEAT_COUNT (o name))) :=
  ⟨rfl, Nat.le_of_ble_eq_true rfl, rfl⟩

/-- Claim C6 counterexample: with iteration count 0 and the configured
repeat and warmup rounds of the source, the run is not rejected before any
measurement: it does fail, but only after the 400 warmup generator
invocations have run, so the invocation counter is not 0. -/
theorem config_zero_not_rejected_at_startup :
    ¬ (((runBenchmarkE 0 REPEAT_COUNT WARMUP_ROUNDS (fun _ _ => 1)).2).isOk = false ∧
       (runBenchmarkE 0 REPEAT_COUNT WARMUP_ROUNDS (fun _ _ => 1)).1 = 0) := by
  intro hc
  have h : (runBenchmarkE 0 REPEAT_COUNT WARMUP_ROUNDS (fun _ _ => 1)).1 = 400 := rfl
  exact absurd (hc.2.symm.trans h) (by decide)

/-- Claim C6 amended: there is no startup validation of the configuration.
With iteration count 0 the run still performs all 400 warmup invocations
and the timed loops, and only then fails with a ZeroDivisionError while
computing the average; with repeat count 0 it fails with a
StatisticsError taking the mean of an empty sample list. -/
theorem zero_config_fails_during_statistics (o : String → ℕ → ℚ) :
    (runBenchmarkE 0 REPEAT_COUNT WARMUP_ROUNDS o).1 = WARMUP_ROUNDS * 4 ∧
    (runBenchmarkE 0 REPEAT_COUNT WARMUP_ROUNDS o).2
      = .error "ZeroDivisionError: division by zero" ∧
    (runBenchmarkE NUM_ITERATIONS 0 WARMUP_ROUNDS o).2
      = .error "StatisticsError: mean requires at least one data point" :=
  ⟨rfl, rfl, rfl⟩

end UUIDBenchmark
